import Mathlib

/-!
Shallow embedding of the DreamTime nudify queue subsystem
(`src/modules/nudify/nudify.js`: classes `Nudify` and `Photo`) and of the
settings migration chain (`SettingsService._upgrade`), together with proofs
about the embedded definitions.

Statuses are the literal strings used by the source: "pending", "waiting",
"running", "finished".
-/

namespace DreamTime

/-! ## Preferences values

The shape of `settings.preferences` as populated by
`SettingsService._loadInitital` (version-4 shape): per-body-part
`{size, randomize, progressive}` records under `preferences.body`, plus
`preferences.advanced`. These are the *values*; the reference structure of
the JS object graph (needed to model lodash `clone`) is embedded separately
below. -/

structure ProgressiveVal where
  enabled : Bool
  rate : Rat
deriving DecidableEq, Repr

structure PartVal where
  size : String
  randomize : Bool
  progressive : Bool
deriving DecidableEq, Repr

structure BodyVal where
  executions : Nat
  randomize : Bool
  progressive : ProgressiveVal
  boobs : PartVal
  areola : PartVal
  nipple : PartVal
  vagina : PartVal
  pubicHair : PartVal
deriving DecidableEq, Repr

structure AdvancedVal where
  scaleMode : String
  useColorTransfer : Bool
  useWaifu : Bool
deriving DecidableEq, Repr

structure PrefsVal where
  body : BodyVal
  advanced : AdvancedVal
deriving DecidableEq, Repr

/-! ## Files

The part of the `File` helper consumed by `Photo._validate` and
`Photo.constructor`: existence, MIME type, path and the content hash `md5`
used as Item identity. `fileExists` embeds the JS property `file.exists`. -/

structure FileModel where
  path : String
  fileExists : Bool
  mimetype : String
  md5 : String
deriving DecidableEq, Repr

/-! ## Photo (Item Controller) state

`Photo` fields relevant to the claims: `id`, `file`, `_status` (initially
"pending"), `runs` (list of 1-based run ids), the `preferences` snapshot
taken in the constructor, the timer, whether `cropper` has ever been
defined, and the local queue contents (ids of queued `PhotoRun`s). -/

structure PhotoState where
  id : String
  file : FileModel
  status : String
  runs : List Nat
  preferences : PrefsVal
  timerRunning : Bool
  cropperDefined : Bool
  localQueue : List Nat
deriving DecidableEq, Repr

/-- Embeds `Photo._validate`: the file must exist and have MIME type `image/jpeg`,
`image/png` or `image/gif`; otherwise an `AppError` is thrown. -/
def validateFile (file : FileModel) : Except String Unit :=
  if !file.fileExists then
    .error "The file does not exists."
  else if file.mimetype ≠ "image/jpeg" ∧ file.mimetype ≠ "image/png"
      ∧ file.mimetype ≠ "image/gif" then
    .error "The file is not a valid photo. Only jpeg, png or gif."
  else
    .ok ()

/-- The field values assigned by the `Photo` constructor:
`id := file.md5`, the stored file, initial status "pending", no runs, the
`preferences` snapshot of `settings.preferences` (the sharing behaviour of
lodash `clone` is modelled by the heap embedding below; here the snapshot
is the value read at construction time), a fresh (stopped) timer, no
cropper yet, and an empty local queue. -/
def mkPhoto (prefs : PrefsVal) (file : FileModel) : PhotoState :=
  { id := file.md5
    file := file
    status := "pending"
    runs := []
    preferences := prefs
    timerRunning := false
    cropperDefined := false
    localQueue := [] }

/-- Embeds the `Photo` constructor: assign the fields, then run `_validate` (which may
throw) and `_setupQueue`. A thrown validation error aborts construction. -/
def Photo.make (prefs : PrefsVal) (file : FileModel) : Except String PhotoState :=
  match validateFile file with
  | .error e => .error e
  | .ok _ => .ok (mkPhoto prefs file)

/-! ## Registry (Nudify) state

`Nudify.photos` (most recent first), the global queue contents (photo ids,
in push order) and a counter of calls to the debounced `emitUpdate`. -/

structure Registry where
  photos : List PhotoState
  queueIds : List String
  emitUpdateCalls : Nat
deriving DecidableEq, Repr

def MAX_PHOTOS : Nat := 1000

def Registry.emitUpdate (r : Registry) : Registry :=
  { r with emitUpdateCalls := r.emitUpdateCalls + 1 }

/-- Replace the stored state of the photo with the given id (JS mutates the
shared `Photo` object; the registry list holds references to it). -/
def updateById (photos : List PhotoState) (p : PhotoState) : List PhotoState :=
  photos.map (fun q => if q.id = p.id then p else q)

/-- Embeds `Nudify.addToQueue`: `queue.push(photo)`; the queue's `task_queued`
handler sets `photo.status = 'waiting'`, and the `Photo` status setter calls
`Nudify.emitUpdate`. -/
def Nudify.addToQueue (r : Registry) (photo : PhotoState) : Registry × PhotoState :=
  let photo := { photo with status := "waiting" }
  let r := { r with queueIds := r.queueIds ++ [photo.id]
                    photos := updateById r.photos photo }
  (r.emitUpdate, photo)

/-- The insertion path of `Nudify.add` once dedupe has passed: `unshift`,
`emitUpdate`, `pop` the oldest photo when the collection exceeds
`MAX_PHOTOS`, then either enqueue (`uploadMode === 'add-queue'`) or
navigate (`uploadMode === 'go-preferences'`, no registry change). -/
def Nudify.insertPhoto (r : Registry) (photo : PhotoState)
    (uploadMode : String) : Registry :=
  let r := { r with photos := photo :: r.photos }
  let r := r.emitUpdate
  let r := if r.photos.length > MAX_PHOTOS
           then { r with photos := r.photos.dropLast }
           else r
  if uploadMode = "add-queue" then (Nudify.addToQueue r photo).1 else r

/-- Embeds `Nudify.add(file)`: construct the `Photo` (validation may throw, in
which case the registry is untouched), return early if a photo with the
same id already exists, otherwise run the insertion path. -/
def Nudify.add (r : Registry) (uploadMode : String) (prefs : PrefsVal)
    (file : FileModel) : Except String Registry :=
  match Photo.make prefs file with
  | .error e => .error e
  | .ok photo =>
    if ((r.photos.find? (fun p => p.id = photo.id)).isSome : Bool) then
      .ok r
    else
      .ok (Nudify.insertPhoto r photo uploadMode)

/-! ## Finishing, cancellation, notification -/

/-- Effects produced by `Photo._onFinish`. -/
structure FinishEffects where
  finishEmitted : Bool
  notificationSent : Bool
deriving DecidableEq, Repr

/-- Embeds `Photo._sendNotification`: returns whether a system `Notification` is
created. `activeWindow()` may be nil; the notification is skipped when the
active window is focused, or when `settings.notifications.allRuns` is off.
-/
def sendNotification (windowFocused : Option Bool) (allRuns : Bool) : Bool :=
  match windowFocused with
  | some true => false
  | _ => allRuns

/-- Embeds `Photo._onFinish(status = 'finished')`: set the status, stop the timer,
emit the per-photo `finish` event (unblocking a suspended `start()`), then
best-effort send the system notification. -/
def Photo.onFinish (p : PhotoState) (status : String)
    (windowFocused : Option Bool) (allRuns : Bool) : PhotoState × FinishEffects :=
  ({ p with status := status, timerRunning := false },
   { finishEmitted := true
     notificationSent := sendNotification windowFocused allRuns })

/-- Embeds `Photo.cancel(status = 'finished')`: `queue.cancel(run.id)` for every
owned run (removing not-yet-started runs from the local queue), then
`_onFinish(status)`. -/
def Photo.cancel (p : PhotoState) (status : String)
    (windowFocused : Option Bool) (allRuns : Bool) : PhotoState × FinishEffects :=
  let p := { p with localQueue := p.localQueue.filter (fun rid => ¬ rid ∈ p.runs) }
  Photo.onFinish p status windowFocused allRuns

/-- Embeds `Nudify.removeFromQueue(photo)`: `queue.cancel(photo.id, cb)` removes the
photo's task from the global queue (cancelling its running handle if
dispatched) and runs the callback `photo.cancel('pending')`. Returns the
updated registry, the photo's new state, and the finish effects. -/
def Nudify.removeFromQueue (r : Registry) (photo : PhotoState)
    (windowFocused : Option Bool) (allRuns : Bool) :
    Registry × PhotoState × FinishEffects :=
  let r := { r with queueIds := r.queueIds.filter (fun i => i ≠ photo.id) }
  let pe := Photo.cancel photo "pending" windowFocused allRuns
  ({ r with photos := updateById r.photos pe.1 }.emitUpdate, pe.1, pe.2)

/-- Embeds `Nudify.remove(photo)`: `photo.cancel()` (default target "finished"),
then delete every photo with that id from the collection and `emitUpdate`.
Returns the updated registry, the removed photo's final state, and the
finish effects. -/
def Nudify.remove (r : Registry) (photo : PhotoState)
    (windowFocused : Option Bool) (allRuns : Bool) :
    Registry × PhotoState × FinishEffects :=
  let pe := Photo.cancel photo "finished" windowFocused allRuns
  let r := { r with photos := r.photos.filter (fun q => q.id ≠ photo.id) }
  (r.emitUpdate, pe.1, pe.2)

/-! ## Local queue (per-photo) and the start cycle

`Photo._setupQueue` configures a `better-queue` with `concurrent: 1`,
`batchSize: 1`, `afterProcessDelay: 500` and a device-dependent
`maxTimeout`; `Nudify.setup` configures the global queue with the same
shape and a one-hour `maxTimeout`. -/

structure QueueOptions where
  maxTimeout : Nat
  afterProcessDelay : Nat
  batchSize : Nat
  concurrent : Nat
deriving DecidableEq, Repr

/-- Options of the per-photo queue built in `Photo._setupQueue`. -/
def localQueueOptions (device : String) : QueueOptions :=
  { maxTimeout := if device = "GPU" then 2 * 60 * 1000 else 10 * 60 * 1000
    afterProcessDelay := 500
    batchSize := 1
    concurrent := 1 }

/-- Options of the global queue built in `Nudify.setup`. -/
def globalQueueOptions : QueueOptions :=
  { maxTimeout := 60 * 60 * 1000
    afterProcessDelay := 500
    batchSize := 1
    concurrent := 1 }

/-- Outcome of one `PhotoRun.start()` promise: resolves, or rejects with a
reason string (the cancellation sentinel is the string "cancelled"). -/
inductive RunOutcome where
  | success
  | failure (reason : String)
deriving DecidableEq, Repr

/-- Lifecycle record of one run as produced by the local queue's handlers:
`task_started` → `run.onStart()`; `task_finish` → `run.onFinish()`;
`task_failed` → `run.onFail()` and, unless the reason is the string
"cancelled", `AppError.handle(error)` (the centralized reporter). -/
structure RunEvent where
  runId : Nat
  onStartCalled : Bool
  failed : Bool
  reportedToErrorHandler : Bool
deriving DecidableEq, Repr

/-- Handlers fired for one run given its outcome. -/
def processRun (outcomes : Nat → RunOutcome) (rid : Nat) : RunEvent :=
  match outcomes rid with
  | .success =>
    { runId := rid, onStartCalled := true, failed := false
      reportedToErrorHandler := false }
  | .failure reason =>
    { runId := rid, onStartCalled := true, failed := true
      reportedToErrorHandler := reason ≠ "cancelled" }

/-- One scheduling state of a draining queue: tasks not yet started, tasks
started but not yet settled, and the log of settled tasks. -/
structure DrainState where
  pending : List Nat
  active : List Nat
  events : List RunEvent
deriving DecidableEq, Repr

/-- One scheduler step of the queue: start the next pending task while
fewer than `opts.concurrent` tasks are active, otherwise settle the oldest
active task (its promise resolves or rejects, firing the handlers). -/
def drainStep (opts : QueueOptions) (outcomes : Nat → RunOutcome)
    (s : DrainState) : DrainState :=
  if s.active.length < opts.concurrent then
    match s.pending with
    | rid :: rest => { s with pending := rest, active := s.active ++ [rid] }
    | [] =>
      match s.active with
      | rid :: rest => { s with active := rest
                                events := s.events ++ [processRun outcomes rid] }
      | [] => s
  else
    match s.active with
    | rid :: rest => { s with active := rest
                              events := s.events ++ [processRun outcomes rid] }
    | [] => s

/-- Iterate the scheduler `n` steps and record every intermediate state. -/
def drainTrace (opts : QueueOptions) (outcomes : Nat → RunOutcome) :
    Nat → DrainState → List DrainState
  | 0, s => [s]
  | n + 1, s => s :: drainTrace opts outcomes n (drainStep opts outcomes s)

/-- The final state after `n` scheduler steps. -/
def drainRun (opts : QueueOptions) (outcomes : Nat → RunOutcome) :
    Nat → DrainState → DrainState
  | 0, s => s
  | n + 1, s => drainRun opts outcomes n (drainStep opts outcomes s)

/-- Draining a queue of run ids from scratch: `2 * length` steps settle
every task with `concurrent = 1`. -/
def drainAll (opts : QueueOptions) (outcomes : Nat → RunOutcome)
    (queue : List Nat) : DrainState :=
  drainRun opts outcomes (2 * queue.length) { pending := queue, active := [], events := [] }

/-- Embeds `Photo.reset()`: status back to "pending" (via the setter), a fresh
timer, and an empty `runs` list. -/
def Photo.reset (p : PhotoState) : PhotoState :=
  { p with status := "pending", timerRunning := false, runs := [] }

/-- Embeds `Photo._onStart()`: status "running", start the timer, emit `start`. -/
def Photo.onStart (p : PhotoState) : PhotoState :=
  { p with status := "running", timerRunning := true }

/-- Result of `Photo.start()` up to the point where the caller suspends on
the `finish` event. -/
inductive StartResult where
  /-- Case `executions === 0`: return at once, nothing touched. -/
  | immediate (p : PhotoState)
  /-- Case `scaleMode === 'cropjs'` where `crop()` threw (no cropper ever defined):
  `removeFromQueue` then rethrow. -/
  | cropFailed (p : PhotoState) (err : String)
  /-- Normal path: reset, `_onStart`, `executions` runs created and pushed
  onto the local queue; the caller now awaits the `finish` event. -/
  | started (p : PhotoState)
deriving DecidableEq, Repr

/-- Embeds `Photo.start()` up to the suspension point. The `for` loop creates
`PhotoRun(it, this)` for `it = 1 .. executions`, pushing each onto `runs`
and onto the local queue. -/
def Photo.start (p : PhotoState) : StartResult :=
  let executions := p.preferences.body.executions
  let scaleMode := p.preferences.advanced.scaleMode
  if executions = 0 then
    .immediate p
  else if scaleMode = "cropjs" ∧ ¬ p.cropperDefined then
    .cropFailed p "This photo has the manual crop selected, you must open the Crop at least once to continue."
  else
    let p := Photo.reset p
    let p := Photo.onStart p
    let ids := List.range' 1 executions
    .started { p with runs := ids, localQueue := p.localQueue ++ ids }

/-- After the local queue drains, the `drain` handler runs `_onFinish()`
(defaulting the status to "finished"). -/
def Photo.afterDrain (p : PhotoState) (windowFocused : Option Bool)
    (allRuns : Bool) : PhotoState × FinishEffects :=
  Photo.onFinish p "finished" windowFocused allRuns

/-! ## Coalesced change notification

`Nudify.emitUpdate = debounce(() => events.emit('nudify.update'), 100,
{ leading: true })`. lodash `debounce` with `leading: true` keeps its
default `trailing: true` and no `maxWait`. The embedding below follows
lodash's implementation (state: `lastCallTime`, `lastInvokeTime`, the
pending timer, and whether `lastArgs` is set — `invokeFunc` clears it),
driven by a discrete event loop over call timestamps; a due timer fires
before a call carrying the same or a later timestamp. -/

namespace Debounce

/-- The `wait` argument: 100 ms. -/
def wait : Nat := 100

structure DState where
  lastCallTime : Option Nat
  lastInvokeTime : Nat
  timerDeadline : Option Nat
  hasLastArgs : Bool
deriving DecidableEq, Repr

def initState : DState :=
  { lastCallTime := none, lastInvokeTime := 0, timerDeadline := none
    hasLastArgs := false }

/-- lodash `shouldInvoke` (monotone clock, no `maxWait`): first call ever,
or at least `wait` since the last call. -/
def shouldInvoke (s : DState) (t : Nat) : Bool :=
  match s.lastCallTime with
  | none => true
  | some lc => wait ≤ t - lc

/-- lodash `invokeFunc`: record the invoke time, clear `lastArgs`, call the
wrapped function (= one emission of `nudify.update` at time `t`). -/
def invokeFunc (s : DState) (t : Nat) : DState × List Nat :=
  ({ s with lastInvokeTime := t, hasLastArgs := false }, [t])

/-- lodash `leadingEdge`: start the timer for `wait`, and since
`leading: true`, invoke immediately. -/
def leadingEdge (s : DState) (t : Nat) : DState × List Nat :=
  invokeFunc { s with lastInvokeTime := t, timerDeadline := some (t + wait) } t

/-- lodash `trailingEdge`: clear the timer; with `trailing: true`, invoke
only if `lastArgs` is set (i.e. the function was called again since the
last invocation). -/
def trailingEdge (s : DState) (t : Nat) : DState × List Nat :=
  let s := { s with timerDeadline := none }
  if s.hasLastArgs then invokeFunc s t else ({ s with hasLastArgs := false }, [])

/-- lodash `timerExpired`: at expiry time `t`, take the trailing edge if
`shouldInvoke`, otherwise restart the timer for `remainingWait`, i.e. until
`lastCallTime + wait`. -/
def timerExpired (s : DState) (t : Nat) : DState × List Nat :=
  if shouldInvoke s t then trailingEdge s t
  else ({ s with timerDeadline := some (s.lastCallTime.getD 0 + wait) }, [])

/-- The debounced function called at time `t`: store `lastArgs` and
`lastCallTime`; when invoking with no live timer, take the leading edge;
otherwise, if no timer is live, start one for `wait`. -/
def callAt (s : DState) (t : Nat) : DState × List Nat :=
  let isInvoking := shouldInvoke s t
  let s := { s with lastCallTime := some t, hasLastArgs := true }
  match s.timerDeadline with
  | none => if isInvoking then leadingEdge s t
            else ({ s with timerDeadline := some (t + wait) }, [])
  | some _ => (s, [])

/-- Discrete event loop: process the (ascending) call timestamps,
interleaving timer expirations; a timer due at or before the next call
fires first. Returns the emission timestamps in order. `fuel` bounds the
number of events. -/
def simulate : Nat → DState → List Nat → List Nat
  | 0, _, _ => []
  | fuel + 1, s, calls =>
    match s.timerDeadline, calls with
    | some d, t :: rest =>
      if d ≤ t then
        let se := timerExpired s d
        se.2 ++ simulate fuel se.1 (t :: rest)
      else
        let se := callAt s t
        se.2 ++ simulate fuel se.1 rest
    | some d, [] =>
      let se := timerExpired s d
      se.2 ++ simulate fuel se.1 []
    | none, t :: rest =>
      let se := callAt s t
      se.2 ++ simulate fuel se.1 rest
    | none, [] => []

/-- Emissions of `Nudify.emitUpdate` for a given ascending list of request
timestamps. The fuel `3 * calls.length + 5` exceeds the number of events:
per call at most one stale-timer refire precedes it, and after the last
call at most one refire precedes the final trailing edge. -/
def debounceEmissions (calls : List Nat) : List Nat :=
  simulate (3 * calls.length + 5) initState calls

end Debounce

/-! ## Object-graph model of the preferences snapshot

`Photo.constructor` runs `this.preferences = clone(settings.preferences)`.
lodash `clone` is a *shallow* copy: the new object gets the same property
values, so nested objects (`preferences.body`, `preferences.advanced`, and
the objects below them) are shared by reference between the global settings
and the photo. This heap embedding makes the reference structure explicit:
addresses are `Nat`, one address space per object shape, and a shallow
clone allocates only a new top-level `PrefsObj`. -/

namespace Heap

/-- The `preferences.body` object: primitive fields inline, nested objects
by reference. -/
structure BodyObj where
  executions : Nat
  randomize : Bool
  progressiveRef : Nat
  boobsRef : Nat
  areolaRef : Nat
  nippleRef : Nat
  vaginaRef : Nat
  pubicHairRef : Nat
deriving DecidableEq, Repr

/-- The `preferences` object: its two properties are references. -/
structure PrefsObj where
  bodyRef : Nat
  advancedRef : Nat
deriving DecidableEq, Repr

/-- The JS heap slice holding preferences object graphs. `next` is the next
fresh address (shared across the address spaces for simplicity). -/
structure Store where
  prefsAt : Nat → Option PrefsObj
  bodyAt : Nat → Option BodyObj
  progressiveAt : Nat → Option ProgressiveVal
  partAt : Nat → Option PartVal
  advancedAt : Nat → Option AdvancedVal
  next : Nat

/-- Dereference a `body` object into a `BodyVal` value. -/
def readBody (h : Store) (b : Nat) : Option BodyVal := do
  let body ← h.bodyAt b
  let progressive ← h.progressiveAt body.progressiveRef
  let boobs ← h.partAt body.boobsRef
  let areola ← h.partAt body.areolaRef
  let nipple ← h.partAt body.nippleRef
  let vagina ← h.partAt body.vaginaRef
  let pubicHair ← h.partAt body.pubicHairRef
  pure { executions := body.executions, randomize := body.randomize
         progressive := progressive, boobs := boobs, areola := areola
         nipple := nipple, vagina := vagina, pubicHair := pubicHair }

/-- Dereference a `preferences` object into a `PrefsVal` value: this is
what any reader of `photo.preferences` (e.g. `start()`) observes. -/
def readPrefs (h : Store) (p : Nat) : Option PrefsVal := do
  let prefs ← h.prefsAt p
  let body ← readBody h prefs.bodyRef
  let advanced ← h.advancedAt prefs.advancedRef
  pure { body := body, advanced := advanced }

/-- lodash `clone(settings.preferences)` as run by the `Photo` constructor:
allocate a fresh top-level object with the *same* property values
(references included); nothing below the top level is copied. Returns the
new heap and the address of the photo's snapshot. -/
def clonePrefs (h : Store) (p : Nat) : Store × Nat :=
  match h.prefsAt p with
  | none => (h, p)
  | some prefs =>
    ({ h with prefsAt := fun a => if a = h.next then some prefs else h.prefsAt a
              next := h.next + 1 },
     h.next)

/-- Mutation `settings.preferences.body.executions = v` (through whatever
reference reaches the body object at address `b`). -/
def setBodyExecutions (h : Store) (b : Nat) (v : Nat) : Store :=
  { h with bodyAt := fun a =>
      if a = b then (h.bodyAt b).map (fun body => { body with executions := v })
      else h.bodyAt a }

/-- Mutation `settings.preferences.advanced.scaleMode = v`. -/
def setAdvancedScaleMode (h : Store) (a0 : Nat) (v : String) : Store :=
  { h with advancedAt := fun a =>
      if a = a0 then (h.advancedAt a0).map (fun adv => { adv with scaleMode := v })
      else h.advancedAt a }

/-- Mutation `settings.preferences.body = <other object>`: rebind a
top-level property of the prefs object at address `p`. -/
def setPrefsBodyRef (h : Store) (p : Nat) (b : Nat) : Store :=
  { h with prefsAt := fun a =>
      if a = p then (h.prefsAt p).map (fun prefs => { prefs with bodyRef := b })
      else h.prefsAt a }

/-- A concrete initial heap for witnesses: the default preferences of
`SettingsService._loadInitital`, laid out at small addresses with
`settings.preferences` at address 0. -/
def sampleStore : Store :=
  { prefsAt := fun a => if a = 0 then some { bodyRef := 0, advancedRef := 0 } else none
    bodyAt := fun a =>
      if a = 0 then
        some { executions := 1, randomize := false, progressiveRef := 0
               boobsRef := 1, areolaRef := 2, nippleRef := 3, vaginaRef := 4
               pubicHairRef := 5 }
      else none
    progressiveAt := fun a => if a = 0 then some { enabled := false, rate := 1 / 10 } else none
    partAt := fun a =>
      if a = 0 then none
      else if a = 1 then some { size := "1", randomize := true, progressive := true }
      else if a = 2 then some { size := "1", randomize := false, progressive := true }
      else if a = 3 then some { size := "1", randomize := false, progressive := true }
      else if a = 4 then some { size := "0.75", randomize := true, progressive := true }
      else if a = 5 then some { size := "1", randomize := true, progressive := true }
      else none
    advancedAt := fun a =>
      if a = 0 then
        some { scaleMode := "auto-rescale", useColorTransfer := false, useWaifu := false }
      else none
    next := 6 }

end Heap

/-! ## Settings documents and `SettingsService._upgrade`

The persisted settings document is JSON; we embed the fragment needed by
`_upgrade`: null/undefined (JS property misses read as `undefined`, both
embedded as `.null`), booleans, numbers (as `Rat`), strings and objects. -/

namespace Settings

inductive Json where
  | null
  | bool (b : Bool)
  | num (q : Rat)
  | str (s : String)
  | obj (fields : List (String × Json))
deriving Repr

/-- Property read `j[k]`: `undefined` (here `.null`) when missing or when
`j` is not an object. -/
def Json.get (j : Json) (k : String) : Json :=
  match j with
  | .obj fields =>
    match fields.find? (fun f => f.1 = k) with
    | some f => f.2
    | none => .null
  | _ => .null

/-- Assign key `k` in a field list: replace in place, else append. -/
def setPairs (fields : List (String × Json)) (k : String) (v : Json) :
    List (String × Json) :=
  match fields with
  | [] => [(k, v)]
  | (k', v') :: rest =>
    if k' = k then (k, v) :: rest else (k', v') :: setPairs rest k v

/-- Property write along a path, `j.a.b = v`: `none` models the JS
`TypeError` thrown when an intermediate value is not an object. -/
def Json.setIn : Json → List String → Json → Option Json
  | _, [], v => some v
  | .obj fields, k :: rest, v => do
    let inner ← ((Json.obj fields).get k).setIn rest v
    some (.obj (setPairs fields k inner))
  | _, _ :: _, _ => none

/-- JS truthiness, for `this.payload.version || 1`. -/
def truthy : Json → Bool
  | .null => false
  | .bool b => b
  | .num q => q ≠ 0
  | .str s => s ≠ ""
  | .obj _ => true

/-- Embeds `payload.version || 1`, read as a number (the stored field is numeric). -/
def versionOr1 (payload : Json) : Rat :=
  match payload.get "version" with
  | .num q => if truthy (.num q) then q else 1
  | _ => 1

/-- Spread `{ ...j }`: copies an object's fields; spreading a non-object
contributes nothing. -/
def spreadOf (j : Json) : Json :=
  match j with
  | .obj fields => .obj fields
  | _ => .obj []

/-- Value of `this._default.version` from `_loadInitital`. -/
def defaultVersion : Rat := 4

/-- Value of `this._default.preferences` from `_loadInitital`. -/
def defaultPreferences : Json :=
  .obj
    [("body", .obj
      [("executions", .num 1), ("randomize", .bool false),
       ("progressive", .obj [("enabled", .bool false), ("rate", .num (1 / 10))]),
       ("boobs", .obj [("size", .str "1"), ("randomize", .bool true), ("progressive", .bool true)]),
       ("areola", .obj [("size", .str "1"), ("randomize", .bool false), ("progressive", .bool true)]),
       ("nipple", .obj [("size", .str "1"), ("randomize", .bool false), ("progressive", .bool true)]),
       ("vagina", .obj [("size", .str "0.75"), ("randomize", .bool true), ("progressive", .bool true)]),
       ("pubicHair", .obj [("size", .str "1"), ("randomize", .bool true), ("progressive", .bool true)])]),
     ("advanced", .obj
      [("scaleMode", .str "auto-rescale"), ("useColorTransfer", .bool false),
       ("useWaifu", .bool false)])]

/-- Value of `this._default.notifications` from `_loadInitital`. -/
def defaultNotifications : Json :=
  .obj [("run", .bool false), ("allRuns", .bool true), ("update", .bool true)]

/-- Lift a property write to `Except`, as JS would throw. -/
def orThrow (o : Option Json) : Except String Json :=
  match o with
  | some j => .ok j
  | none => .error "TypeError"

/-- Embeds `SettingsService._upgrade`, faithfully: `currentVersion = payload.version
|| 1`, `newVersion = this._default.version` (= 4 in this source); return the
payload untouched when equal; otherwise start from a deep clone and apply
the three *guarded* blocks — note every guard also tests `newVersion`
(`currentVersion === 1 && newVersion === 2`, `=== 2 && === 3`,
`=== 3 && === 4`) — and `this.set(newSettings)` the result. The JS blocks
mutate `newSettings` in place; the embedding performs the same writes
functionally (within a block, the default objects assigned and then
mutated are not read again, so the value semantics agree). -/
def upgradeSettings (payload : Json) : Except String Json := do
  let currentVersion : Rat := versionOr1 payload
  let newVersion : Rat := defaultVersion
  if newVersion = currentVersion then
    return payload
  let currentSettings := payload
  let newSettings := currentSettings
  -- Upgrade 1 -> 2
  let newSettings ←
    if currentVersion = 1 ∧ newVersion = 2 then do
      let s ← orThrow (newSettings.setIn ["version"] (.num 2))
      let s ← orThrow (s.setIn ["preferences"] defaultPreferences)
      let s ← orThrow (s.setIn ["notifications"] defaultNotifications)
      let prefs := payload.get "preferences"
      let s ← orThrow (s.setIn ["preferences", "boobs", "size"] (prefs.get "boobsSize"))
      let s ← orThrow (s.setIn ["preferences", "areola", "size"] (prefs.get "areolaSize"))
      let s ← orThrow (s.setIn ["preferences", "nipple", "size"] (prefs.get "nippleSize"))
      let s ← orThrow (s.setIn ["preferences", "vagina", "size"] (prefs.get "vaginaSize"))
      let s ← orThrow (s.setIn ["preferences", "pubicHair", "size"] (prefs.get "pubicHairSize"))
      pure s
    else pure newSettings
  -- Upgrade 2 -> 3
  let newSettings ←
    if currentVersion = 2 ∧ newVersion = 3 then do
      let processing := currentSettings.get "processing"
      let preferences := currentSettings.get "preferences"
      let s ← orThrow (newSettings.setIn ["version"] (.num 3))
      let newProcessing :=
        match (spreadOf processing).setIn ["cores"] (.num 4) with
        | some p =>
          match p.setIn ["disablePersistentGan"] (.bool false) with
          | some p => p
          | none => .null
        | none => .null
      let s ← orThrow (s.setIn ["processing"] newProcessing)
      let newPreferences : Json := .obj
        [("body", .obj
          [("executions", preferences.get "executions"),
           ("randomize", preferences.get "randomizePreferences"),
           ("progressive", .obj
             [("enabled", preferences.get "progressivePreferences"),
              ("rate", .num (1 / 10))]),
           ("boobs", preferences.get "boobs"),
           ("areola", preferences.get "areola"),
           ("nipple", preferences.get "nipple"),
           ("vagina", preferences.get "vagina"),
           ("pubicHair", preferences.get "pubicHair")]),
         ("advanced", .obj
          [("scaleMode", .str "auto-rescale"),
           ("useColorTransfer", .bool false),
           ("useWaifu", .bool false)])]
      let s ← orThrow (s.setIn ["preferences"] newPreferences)
      pure s
    else pure newSettings
  -- Upgrade 3 -> 4
  let newSettings ←
    if currentVersion = 3 ∧ newVersion = 4 then do
      let s ← orThrow (newSettings.setIn ["version"] (.num 4))
      let s ← orThrow (s.setIn ["app"]
        (.obj [("disableHardwareAcceleration", .bool false),
               ("uploadMode", .str "add-queue")]))
      pure s
    else pure newSettings
  return newSettings

/-- A stored version-1 document (flat `preferences` with the per-part
`…Size` string fields, as consumed by the 1 → 2 block). -/
def sampleV1Doc : Json :=
  .obj
    [("version", .num 1), ("welcome", .bool true),
     ("preferences", .obj
       [("boobsSize", .str "1"), ("areolaSize", .str "1"),
        ("nippleSize", .str "1"), ("vaginaSize", .str "0.75"),
        ("pubicHairSize", .str "1"),
        ("executions", .num 1), ("randomizePreferences", .bool false),
        ("progressivePreferences", .bool false)]),
     ("processing", .obj [("device", .str "CPU")])]

/-- A stored version-2 document (shape consumed by the 2 → 3 block). -/
def sampleV2Doc : Json :=
  .obj
    [("version", .num 2), ("welcome", .bool true),
     ("preferences", .obj
       [("executions", .num 1), ("randomizePreferences", .bool false),
        ("progressivePreferences", .bool false),
        ("boobs", .obj [("size", .str "1")]),
        ("areola", .obj [("size", .str "1")]),
        ("nipple", .obj [("size", .str "1")]),
        ("vagina", .obj [("size", .str "0.75")]),
        ("pubicHair", .obj [("size", .str "1")])]),
     ("processing", .obj [("device", .str "CPU")]),
     ("notifications", defaultNotifications)]

/-- A stored version-3 document. -/
def sampleV3Doc : Json :=
  .obj
    [("version", .num 3), ("welcome", .bool true),
     ("preferences", defaultPreferences),
     ("processing", .obj
       [("device", .str "CPU"), ("cores", .num 4),
        ("disablePersistentGan", .bool false)]),
     ("notifications", defaultNotifications)]

end Settings

/-! ## Concrete fixtures -/

/-- The value of the default `settings.preferences` from
`SettingsService._loadInitital`. -/
def defaultPrefsVal : PrefsVal :=
  { body :=
      { executions := 1, randomize := false
        progressive := { enabled := false, rate := 1 / 10 }
        boobs := { size := "1", randomize := true, progressive := true }
        areola := { size := "1", randomize := false, progressive := true }
        nipple := { size := "1", randomize := false, progressive := true }
        vagina := { size := "0.75", randomize := true, progressive := true }
        pubicHair := { size := "1", randomize := true, progressive := true } }
    advanced := { scaleMode := "auto-rescale", useColorTransfer := false
                  useWaifu := false } }

def sampleFile : FileModel :=
  { path := "photo.png", fileExists := true, mimetype := "image/png"
    md5 := "abc123" }

/-- A photo sitting in the global queue. -/
def samplePhoto : PhotoState :=
  { id := "abc123", file := sampleFile, status := "waiting", runs := []
    preferences := defaultPrefsVal, timerRunning := false
    cropperDefined := false, localQueue := [] }

/-- Variant of `samplePhoto` with `preferences.body.executions = 3`, not yet started. -/
def samplePhoto3 : PhotoState :=
  { samplePhoto with
      status := "pending"
      preferences :=
        { defaultPrefsVal with
            body := { defaultPrefsVal.body with executions := 3 } } }

/-- Variant of `samplePhoto` with `preferences.body.executions = 0`. -/
def samplePhoto0 : PhotoState :=
  { samplePhoto with
      status := "pending"
      preferences :=
        { defaultPrefsVal with
            body := { defaultPrefsVal.body with executions := 0 } } }

def sampleRegistry : Registry :=
  { photos := [samplePhoto], queueIds := ["abc123"], emitUpdateCalls := 0 }

/-- Distinct registry inhabitants for the capacity witness. -/
def mkRegPhoto (i : Nat) : PhotoState :=
  { id := toString i
    file := { path := toString i, fileExists := true, mimetype := "image/png"
              md5 := toString i }
    status := "pending", runs := [], preferences := defaultPrefsVal
    timerRunning := false, cropperDefined := false, localQueue := [] }

/-- A registry holding exactly `MAX_PHOTOS` photos. -/
def fullRegistry : Registry :=
  { photos := (List.range MAX_PHOTOS).map mkRegPhoto, queueIds := []
    emitUpdateCalls := 0 }

def newFile : FileModel :=
  { path := "new.png", fileExists := true, mimetype := "image/png"
    md5 := "new" }

/-- A file rejected by `Photo._validate` (wrong MIME type). -/
def badFile : FileModel :=
  { path := "doc.pdf", fileExists := true, mimetype := "application/pdf"
    md5 := "deadbeef" }

/-! ## Helper lemmas -/

theorem updateById_map_id (l : List PhotoState) (p : PhotoState) :
    (updateById l p).map (fun q => q.id) = l.map (fun q => q.id) := by
  unfold updateById
  rw [List.map_map]
  refine List.map_congr_left (fun q _ => ?_)
  by_cases h : q.id = p.id <;> simp [h]

theorem insertPhoto_ids (r : Registry) (photo : PhotoState) (mode : String) :
    (Nudify.insertPhoto r photo mode).photos.map (fun q => q.id)
      = (if r.photos.length + 1 > MAX_PHOTOS
         then (photo :: r.photos).dropLast
         else photo :: r.photos).map (fun q => q.id) := by
  unfold Nudify.insertPhoto Nudify.addToQueue Registry.emitUpdate
  by_cases hm : mode = "add-queue" <;>
    by_cases hc : r.photos.length + 1 > MAX_PHOTOS <;>
      simp [hm, hc, updateById_map_id]

theorem drainStep_active_le (opts : QueueOptions) (outcomes : Nat → RunOutcome)
    (s : DrainState) (h : s.active.length ≤ opts.concurrent) :
    (drainStep opts outcomes s).active.length ≤ opts.concurrent := by
  unfold drainStep
  split
  · match s.pending with
    | rid :: rest => simpa using ‹s.active.length < opts.concurrent›
    | [] =>
      match hs : s.active with
      | rid :: rest => simp_all; omega
      | [] => simpa [hs] using h
  · match hs : s.active with
    | rid :: rest => simp_all; omega
    | [] => simpa [hs] using h

theorem drainTrace_active_le (opts : QueueOptions) (outcomes : Nat → RunOutcome) :
    ∀ (n : Nat) (s : DrainState), s.active.length ≤ opts.concurrent →
      ∀ st ∈ drainTrace opts outcomes n s, st.active.length ≤ opts.concurrent := by
  intro n
  induction n with
  | zero => intro s hs st hst; simp [drainTrace] at hst; simpa [hst] using hs
  | succ n ih =>
    intro s hs st hst
    simp only [drainTrace, List.mem_cons] at hst
    rcases hst with rfl | hst
    · exact hs
    · exact ih _ (drainStep_active_le opts outcomes s hs) st hst

/-- With `concurrent = 1`, `2 * n` scheduler steps settle all `n` queued
tasks in order, appending one event per task. -/
theorem drainRun_concurrent_one (opts : QueueOptions)
    (hc : opts.concurrent = 1) (outcomes : Nat → RunOutcome) :
    ∀ (ids : List Nat) (evs : List RunEvent),
      drainRun opts outcomes (2 * ids.length)
          { pending := ids, active := [], events := evs }
        = { pending := [], active := []
            events := evs ++ ids.map (processRun outcomes) } := by
  intro ids
  induction ids with
  | nil => intro evs; simp [drainRun]
  | cons rid rest ih =>
    intro evs
    have h2 : 2 * (rid :: rest).length = 2 * rest.length + 1 + 1 := by
      simp [List.length_cons]; ring
    rw [h2, drainRun, drainRun]
    have hstep1 : drainStep opts outcomes
        { pending := rid :: rest, active := [], events := evs }
        = { pending := rest, active := [rid], events := evs } := by
      simp [drainStep, hc]
    have hstep2 : drainStep opts outcomes
        { pending := rest, active := [rid], events := evs }
        = { pending := rest, active := []
            events := evs ++ [processRun outcomes rid] } := by
      simp [drainStep, hc]
    rw [hstep1, hstep2, ih]
    simp

namespace Debounce

theorem simulate_nil_none (fuel : Nat) (s : DState)
    (h : s.timerDeadline = none) : simulate (fuel + 1) s [] = [] := by
  simp [simulate, h]

theorem simulate_nil_timer (fuel : Nat) (s : DState) (d : Nat)
    (h : s.timerDeadline = some d) :
    simulate (fuel + 1) s []
      = (timerExpired s d).2 ++ simulate fuel (timerExpired s d).1 [] := by
  simp [simulate, h]

theorem simulate_cons_timer (fuel : Nat) (s : DState) (d t : Nat)
    (rest : List Nat) (h : s.timerDeadline = some d) (hle : d ≤ t) :
    simulate (fuel + 1) s (t :: rest)
      = (timerExpired s d).2 ++ simulate fuel (timerExpired s d).1 (t :: rest) := by
  simp [simulate, h, hle]

theorem simulate_cons_call (fuel : Nat) (s : DState) (d t : Nat)
    (rest : List Nat) (h : s.timerDeadline = some d) (hgt : ¬ d ≤ t) :
    simulate (fuel + 1) s (t :: rest)
      = (callAt s t).2 ++ simulate fuel (callAt s t).1 rest := by
  simp [simulate, h, hgt]

theorem simulate_cons_none (fuel : Nat) (s : DState) (t : Nat)
    (rest : List Nat) (h : s.timerDeadline = none) :
    simulate (fuel + 1) s (t :: rest)
      = (callAt s t).2 ++ simulate fuel (callAt s t).1 rest := by
  simp [simulate, h]

theorem timerExpired_rearm (L I d : Nat) (args : Bool)
    (h : ¬ wait ≤ d - L) :
    timerExpired ⟨some L, I, some d, args⟩ d
      = (⟨some L, I, some (L + wait), args⟩, []) := by
  simp [timerExpired, shouldInvoke, h]

theorem timerExpired_trailing_args (L I d : Nat) (h : wait ≤ d - L) :
    timerExpired ⟨some L, I, some d, true⟩ d
      = (⟨some L, d, none, false⟩, [d]) := by
  simp [timerExpired, shouldInvoke, h, trailingEdge, invokeFunc]

theorem timerExpired_trailing_noargs (L I d : Nat) (h : wait ≤ d - L) :
    timerExpired ⟨some L, I, some d, false⟩ d
      = (⟨some L, I, none, false⟩, []) := by
  simp [timerExpired, shouldInvoke, h, trailingEdge]

theorem callAt_noinvoke (L I d t : Nat) (args : Bool)
    (h : ¬ wait ≤ t - L) :
    callAt ⟨some L, I, some d, args⟩ t = (⟨some t, I, some d, true⟩, []) := by
  simp [callAt, shouldInvoke, h]

theorem callAt_leading_first (I t : Nat) :
    callAt ⟨none, I, none, false⟩ t
      = (⟨some t, t, some (t + wait), false⟩, [t]) := by
  simp [callAt, shouldInvoke, leadingEdge, invokeFunc]

/-- Once no further calls arrive, a pending timer armed exactly at
`lastCallTime + wait` with `lastArgs` set fires the trailing edge: one
emission at `L + wait`. -/
theorem simulate_exact_trailing (f L I : Nat) :
    simulate (f + 2)
        ⟨some L, I, some (L + wait), true⟩ []
      = [L + wait] := by
  rw [show f + 2 = (f + 1) + 1 from rfl,
    simulate_nil_timer (f + 1) _ (L + wait) rfl,
    timerExpired_trailing_args L I (L + wait) (by omega)]
  dsimp only
  rw [simulate_nil_none f _ rfl]
  simp

/-- Mid-burst invariant: with a live timer at `d ∈ (L, L + wait]`, pending
`lastArgs`, and every further call gap below `wait`, the only remaining
emission is the trailing one at `lastCall + wait`. -/
theorem simulate_midburst (calls : List Nat) :
    ∀ (fuel L d I : Nat), 2 * calls.length + 3 ≤ fuel → L < d →
      d ≤ L + wait →
      List.Chain (fun a b => a < b ∧ b - a < wait) L calls →
      simulate fuel ⟨some L, I, some d, true⟩ calls
        = [calls.getLastD L + wait] := by
  induction calls with
  | nil =>
    intro fuel L d I hfuel hd1 hd2 _
    obtain ⟨f, rfl⟩ : ∃ f, fuel = f + 3 := ⟨fuel - 3, by omega⟩
    simp only [List.getLastD_nil]
    by_cases heq : d = L + wait
    · subst heq
      exact simulate_exact_trailing (f + 1) L I
    · rw [show f + 3 = (f + 2) + 1 from rfl,
        simulate_nil_timer (f + 2) _ d rfl,
        timerExpired_rearm L I d true (by omega)]
      dsimp only
      rw [simulate_exact_trailing f L I]
      simp
  | cons t rest ih =>
    intro fuel L d I hfuel hd1 hd2 hchain
    cases hchain with
    | cons hR hchain' =>
      obtain ⟨hLt, hgap⟩ := hR
      have hlen : 2 * rest.length + 5 ≤ fuel := by
        simp only [List.length_cons] at hfuel
        omega
      obtain ⟨f, rfl⟩ : ∃ f, fuel = f + 2 := ⟨fuel - 2, by omega⟩
      rw [List.getLastD_cons]
      by_cases hdt : d ≤ t
      · rw [show f + 2 = (f + 1) + 1 from rfl,
          simulate_cons_timer (f + 1) _ d t rest rfl hdt,
          timerExpired_rearm L I d true (by omega)]
        dsimp only
        rw [simulate_cons_call f _ (L + wait) t rest rfl (by omega),
          callAt_noinvoke L I (L + wait) t true (by omega)]
        dsimp only
        rw [ih f t (L + wait) I (by omega) (by omega) (by omega) hchain']
        simp
      · rw [show f + 2 = (f + 1) + 1 from rfl,
          simulate_cons_call (f + 1) _ d t rest rfl hdt,
          callAt_noinvoke L I d t true (by omega)]
        dsimp only
        rw [ih (f + 1) t d I (by omega) (by omega) (by omega) hchain']
        simp

end Debounce

/-- C2: the spec says the settings migration chain 1→2, 2→3, 3→4 runs
sequentially at load time so every stored version `v < 4` reaches
`version == 4`. In the code every step's guard also tests the target
version exactly (`currentVersion === 1 && newVersion === 2`, etc.) while
`newVersion` is always the current default 4, so a version-1 and a
version-2 document pass through `_upgrade` completely unchanged; only a
version-3 document reaches 4. This evaluates the embedded `_upgrade` at
those failing inputs. -/
theorem settings_upgrade_stalls_below_v3 :
    Settings.upgradeSettings Settings.sampleV1Doc = .ok Settings.sampleV1Doc ∧
    Settings.versionOr1 Settings.sampleV1Doc = 1 ∧
    Settings.upgradeSettings Settings.sampleV2Doc = .ok Settings.sampleV2Doc ∧
    Settings.versionOr1 Settings.sampleV2Doc = 2 ∧
    (Settings.upgradeSettings Settings.sampleV3Doc).map (fun d => d.get "version")
      = .ok (.num 4) :=
  ⟨rfl, rfl, rfl, rfl, rfl⟩

/-- C3: cancelling an Item in status "waiting" (or "running") through
`Nudify.removeFromQueue` leaves it with status "pending", while
`Nudify.remove` cancels it to "finished" and deletes it from the
collection. -/
theorem cancellation_two_targets (r : Registry) (p : PhotoState)
    (wf : Option Bool) (ar : Bool)
    (h : p.status = "waiting" ∨ p.status = "running") :
    (Nudify.removeFromQueue r p wf ar).2.1.status = "pending" ∧
    (Nudify.remove r p wf ar).2.1.status = "finished" ∧
    ∀ q ∈ (Nudify.remove r p wf ar).1.photos, q.id ≠ p.id := by
  refine ⟨rfl, rfl, ?_⟩
  intro q hq
  simp only [Nudify.remove, Registry.emitUpdate, List.mem_filter,
    decide_eq_true_eq] at hq
  exact hq.2

theorem cancellation_two_targets_witness :
    (Nudify.removeFromQueue sampleRegistry samplePhoto none true).2.1.status
        = "pending" ∧
    (Nudify.remove sampleRegistry samplePhoto none true).2.1.status
        = "finished" ∧
    ∀ q ∈ (Nudify.remove sampleRegistry samplePhoto none true).1.photos,
      q.id ≠ samplePhoto.id :=
  cancellation_two_targets sampleRegistry samplePhoto none true (Or.inl rfl)

/-- C9: every `cancel(targetStatus)` — including the queue-removal target
"pending" — routes through `_onFinish`: the timer stops, the per-Item
`finish` event fires, and `_sendNotification` runs, so removing a waiting
Item from the queue can raise a "has finished" system notification (it does
whenever no window is focused and `notifications.allRuns` is on). -/
theorem cancel_common_finish_path (r : Registry) (p : PhotoState)
    (status : String) (wf : Option Bool) (ar : Bool) :
    (Photo.cancel p status wf ar).1.status = status ∧
    (Photo.cancel p status wf ar).1.timerRunning = false ∧
    (Photo.cancel p status wf ar).2.finishEmitted = true ∧
    (Photo.cancel p status wf ar).2.notificationSent = sendNotification wf ar ∧
    (Nudify.removeFromQueue r p wf ar).2.2.finishEmitted = true ∧
    (wf = none → ar = true →
      (Nudify.removeFromQueue r p wf ar).2.2.notificationSent = true) := by
  refine ⟨rfl, rfl, rfl, rfl, rfl, ?_⟩
  rintro rfl rfl
  rfl

theorem cancel_common_finish_path_witness :
    (Photo.cancel samplePhoto "pending" none true).1.status = "pending" ∧
    (Photo.cancel samplePhoto "pending" none true).1.timerRunning = false ∧
    (Photo.cancel samplePhoto "pending" none true).2.finishEmitted = true ∧
    (Nudify.removeFromQueue sampleRegistry samplePhoto none true).2.2.notificationSent
      = true :=
  ⟨(cancel_common_finish_path sampleRegistry samplePhoto "pending" none true).1,
   (cancel_common_finish_path sampleRegistry samplePhoto "pending" none true).2.1,
   (cancel_common_finish_path sampleRegistry samplePhoto "pending" none true).2.2.1,
   (cancel_common_finish_path sampleRegistry samplePhoto "pending" none true).2.2.2.2.2
     rfl rfl⟩

/-- C10: `add(file)` constructs and validates the `Photo` before touching
the registry, so a validation failure (missing file or MIME type other than
jpeg/png/gif) propagates as the same error and `add` never returns a new
registry state: the collection, queue and update channel are untouched. -/
theorem add_atomic_on_validation_failure (r : Registry) (uploadMode : String)
    (prefs : PrefsVal) (file : FileModel)
    (h : file.fileExists = false ∨
      (file.mimetype ≠ "image/jpeg" ∧ file.mimetype ≠ "image/png" ∧
       file.mimetype ≠ "image/gif")) :
    ∃ e, validateFile file = .error e ∧
      Photo.make prefs file = .error e ∧
      Nudify.add r uploadMode prefs file = .error e ∧
      ∀ r', Nudify.add r uploadMode prefs file ≠ .ok r' := by
  obtain ⟨e, he⟩ : ∃ e, validateFile file = .error e := by
    rcases h with h1 | ⟨h2a, h2b, h2c⟩
    · exact ⟨"The file does not exists.", by simp [validateFile, h1]⟩
    · by_cases hex : file.fileExists
      · exact ⟨"The file is not a valid photo. Only jpeg, png or gif.",
          by simp [validateFile, hex, h2a, h2b, h2c]⟩
      · exact ⟨"The file does not exists.",
          by simp [validateFile, hex]⟩
  have hmake : Photo.make prefs file = .error e := by
    simp [Photo.make, he]
  refine ⟨e, he, hmake, ?_, ?_⟩
  · simp [Nudify.add, hmake]
  · intro r' hr'
    simp [Nudify.add, hmake] at hr'

theorem add_atomic_on_validation_failure_witness :
    ∃ e, validateFile badFile = .error e ∧
      Photo.make defaultPrefsVal badFile = .error e ∧
      Nudify.add sampleRegistry "add-queue" defaultPrefsVal badFile = .error e ∧
      ∀ r', Nudify.add sampleRegistry "add-queue" defaultPrefsVal badFile ≠ .ok r' :=
  add_atomic_on_validation_failure sampleRegistry "add-queue" defaultPrefsVal
    badFile (Or.inr ⟨by decide, by decide, by decide⟩)

/-- C4: with the local queue (concurrency 1), a unit that fails at position
k does not stop the queue: every queued unit still gets processed in order,
its failure is handled per unit by `onFail` and forwarded to the
centralized reporter exactly when the reason is not the string "cancelled",
and when the queue drains the Item transitions to "finished" regardless of
the individual outcomes. -/
theorem failed_run_isolation (device : String) (outcomes : Nat → RunOutcome)
    (ids : List Nat) (k : Nat) (reason : String) (p : PhotoState)
    (wf : Option Bool) (ar : Bool)
    (hk : k ∈ ids) (hfail : outcomes k = .failure reason) :
    (drainAll (localQueueOptions device) outcomes ids).events
        = ids.map (processRun outcomes) ∧
    (drainAll (localQueueOptions device) outcomes ids).pending = [] ∧
    (drainAll (localQueueOptions device) outcomes ids).active = [] ∧
    (processRun outcomes k).onStartCalled = true ∧
    (processRun outcomes k).failed = true ∧
    ((processRun outcomes k).reportedToErrorHandler = true ↔
      reason ≠ "cancelled") ∧
    (Photo.afterDrain p wf ar).1.status = "finished" ∧
    (Photo.afterDrain p wf ar).2.finishEmitted = true := by
  have hdrain := drainRun_concurrent_one (localQueueOptions device) rfl
    outcomes ids []
  refine ⟨?_, ?_, ?_, ?_, ?_, ?_, rfl, rfl⟩
  · rw [drainAll, hdrain]; simp
  · rw [drainAll, hdrain]
  · rw [drainAll, hdrain]
  · simp [processRun, hfail]
  · simp [processRun, hfail]
  · simp [processRun, hfail]

theorem failed_run_isolation_witness :
    (drainAll (localQueueOptions "GPU")
        (fun i => if i = 2 then .failure "boom" else .success) [1, 2, 3]).events
      = [1, 2, 3].map
          (processRun (fun i => if i = 2 then .failure "boom" else .success)) ∧
    (processRun (fun i => if i = 2 then .failure "boom" else .success) 2).failed
      = true ∧
    (Photo.afterDrain samplePhoto none true).1.status = "finished" := by
  have h := failed_run_isolation "GPU"
    (fun i => if i = 2 then .failure "boom" else .success) [1, 2, 3] 2 "boom"
    samplePhoto none true (by decide) (by decide)
  exact ⟨h.1, h.2.2.2.2.1, h.2.2.2.2.2.2.1⟩

/-- C8: with `executions = N > 0` (and the scale mode not requiring a
manual crop), `start()` resets the Item and creates exactly N Work Units
with 1-based indices 1..N in order, pushing them all onto the local queue
and transitioning to "running"; the local queue runs with `concurrent = 1`,
so at every scheduling state at most one unit is executing. With
`executions = 0`, `start()` returns at once: no Work Unit is created and no
"running" status is observed. -/
theorem start_run_creation (p : PhotoState) (device : String)
    (outcomes : Nat → RunOutcome) :
    (p.preferences.body.executions = 0 → Photo.start p = .immediate p) ∧
    (∀ N, p.preferences.body.executions = N → 0 < N →
      p.preferences.advanced.scaleMode ≠ "cropjs" → p.localQueue = [] →
      ∃ p', Photo.start p = .started p' ∧
        p'.runs = List.range' 1 N ∧
        p'.runs.length = N ∧
        p'.localQueue = List.range' 1 N ∧
        p'.status = "running" ∧
        p'.timerRunning = true ∧
        (localQueueOptions device).concurrent = 1 ∧
        ∀ st ∈ drainTrace (localQueueOptions device) outcomes (2 * N)
            { pending := p'.localQueue, active := [], events := [] },
          st.active.length ≤ 1) := by
  constructor
  · intro h0
    simp [Photo.start, h0]
  · intro N hN hpos hscale hq
    have hstart : Photo.start p = .started
        { p with status := "running", timerRunning := true
                 runs := List.range' 1 N, localQueue := List.range' 1 N } := by
      simp only [Photo.start, hN, hq]
      rw [if_neg (by omega), if_neg (fun hcontra => hscale hcontra.1)]
      simp [Photo.onStart, Photo.reset, hq]
    refine ⟨_, hstart, rfl, List.length_range' 1 1 N, rfl, rfl, rfl, rfl, ?_⟩
    intro st hst
    exact drainTrace_active_le (localQueueOptions device) outcomes (2 * N) _
      (by simp) st hst

theorem start_run_creation_witness :
    (∃ p', Photo.start samplePhoto3 = .started p' ∧
      p'.runs = List.range' 1 3 ∧
      p'.runs.length = 3 ∧
      p'.localQueue = List.range' 1 3 ∧
      p'.status = "running" ∧
      p'.timerRunning = true ∧
      (localQueueOptions "GPU").concurrent = 1 ∧
      ∀ st ∈ drainTrace (localQueueOptions "GPU") (fun _ => .success) (2 * 3)
          { pending := p'.localQueue, active := [], events := [] },
        st.active.length ≤ 1) ∧
    Photo.start samplePhoto0 = .immediate samplePhoto0 :=
  ⟨(start_run_creation samplePhoto3 "GPU" (fun _ => .success)).2 3 rfl
      (by decide) (by decide) rfl,
   (start_run_creation samplePhoto0 "GPU" (fun _ => .success)).1 rfl⟩

/-- C6: the registry never exceeds `MAX_PHOTOS` (1000): after any
successful `add` into a registry within capacity the collection length is
still at most 1000, and inserting a fresh valid file into a registry at
exactly capacity places the new Item at the front and evicts the oldest
(last) entry. -/
theorem registry_capacity_bound (r : Registry) (uploadMode : String)
    (prefs : PrefsVal) (file : FileModel)
    (hlen : r.photos.length ≤ MAX_PHOTOS) :
    (∀ r', Nudify.add r uploadMode prefs file = .ok r' →
       r'.photos.length ≤ MAX_PHOTOS) ∧
    (r.photos.length = MAX_PHOTOS →
     r.photos.find? (fun p => p.id = file.md5) = none →
     validateFile file = .ok () →
     ∃ r', Nudify.add r uploadMode prefs file = .ok r' ∧
       r'.photos.map (fun p => p.id)
         = file.md5 :: (r.photos.dropLast.map (fun p => p.id)) ∧
       r'.photos.length = MAX_PHOTOS) := by
  constructor
  · intro r' hadd
    cases hval : validateFile file with
    | error e => simp [Nudify.add, Photo.make, hval] at hadd
    | ok u =>
      have hmake : Photo.make prefs file = .ok (mkPhoto prefs file) := by
        simp [Photo.make, hval]
      simp only [Nudify.add, hmake] at hadd
      by_cases hdup :
          (r.photos.find? (fun p => p.id = (mkPhoto prefs file).id)).isSome = true
      · rw [if_pos hdup] at hadd
        injection hadd with hadd
        subst hadd
        exact hlen
      · rw [if_neg hdup] at hadd
        injection hadd with hadd
        subst hadd
        have hlen' := congrArg List.length
          (insertPhoto_ids r (mkPhoto prefs file) uploadMode)
        rw [List.length_map, List.length_map] at hlen'
        rw [hlen']
        by_cases hc : r.photos.length + 1 > MAX_PHOTOS
        · rw [if_pos hc, List.length_dropLast]
          simp
          omega
        · rw [if_neg hc]
          simp
          omega
  · intro hcap hfresh hval
    have hmake : Photo.make prefs file = .ok (mkPhoto prefs file) := by
      simp [Photo.make, hval]
    have hdup :
        ¬ (r.photos.find? (fun p => p.id = (mkPhoto prefs file).id)).isSome = true := by
      have : (mkPhoto prefs file).id = file.md5 := rfl
      rw [this, hfresh]
      simp
    have hne : r.photos ≠ [] := by
      intro h
      rw [h] at hcap
      simp [MAX_PHOTOS] at hcap
    obtain ⟨a, l, hal⟩ : ∃ a l, r.photos = a :: l := by
      cases hrp : r.photos with
      | nil => exact absurd hrp hne
      | cons a l => exact ⟨a, l, rfl⟩
    have hids : (Nudify.insertPhoto r (mkPhoto prefs file) uploadMode).photos.map
          (fun p => p.id)
        = file.md5 :: (r.photos.dropLast.map (fun p => p.id)) := by
      rw [insertPhoto_ids, if_pos (by omega)]
      rw [hal, List.dropLast_cons₂]
      simp [mkPhoto]
    refine ⟨Nudify.insertPhoto r (mkPhoto prefs file) uploadMode, ?_, hids, ?_⟩
    · simp [Nudify.add, hmake, hdup]
    · have hlen' := congrArg List.length hids
      rw [List.length_map, List.length_cons, List.length_map,
        List.length_dropLast] at hlen'
      rw [hlen', hcap]
      simp [MAX_PHOTOS]

set_option maxRecDepth 100000 in
theorem registry_capacity_bound_witness :
    ∃ r', Nudify.add fullRegistry "go-preferences" defaultPrefsVal newFile = .ok r' ∧
      r'.photos.map (fun p => p.id)
        = newFile.md5 :: (fullRegistry.photos.dropLast.map (fun p => p.id)) ∧
      r'.photos.length = MAX_PHOTOS :=
  (registry_capacity_bound fullRegistry "go-preferences" defaultPrefsVal newFile
    (by simp [fullRegistry])).2 (by simp [fullRegistry]) (by decide) rfl

/-- C7: `add` is idempotent on item identity: when an Item with the file's
content hash already exists, `add` is a no-op returning the registry
unchanged (no insertion, no update request); consequently adding the same
file twice (starting from a registry without that identity) leaves exactly
one Item with that id. -/
theorem add_idempotent_on_identity (r : Registry) (uploadMode : String)
    (prefs : PrefsVal) (file : FileModel)
    (hval : validateFile file = .ok ()) :
    ((r.photos.find? (fun p => p.id = file.md5)).isSome = true →
       Nudify.add r uploadMode prefs file = .ok r) ∧
    (∀ r', Nudify.add r uploadMode prefs file = .ok r' →
       Nudify.add r' uploadMode prefs file = .ok r' ∧
       (r.photos.filter (fun p => p.id = file.md5) = [] →
         (r'.photos.filter (fun p => p.id = file.md5)).length = 1)) := by
  have hmake : Photo.make prefs file = .ok (mkPhoto prefs file) := by
    simp [Photo.make, hval]
  constructor
  · intro hdup
    simp only [Nudify.add, hmake,
      show (mkPhoto prefs file).id = file.md5 from rfl]
    rw [if_pos hdup]
  · intro r' hadd
    simp only [Nudify.add, hmake] at hadd
    by_cases hdup :
        (r.photos.find? (fun p => p.id = (mkPhoto prefs file).id)).isSome = true
    · rw [if_pos hdup] at hadd
      injection hadd with hadd
      subst hadd
      constructor
      · simp only [Nudify.add, hmake]
        rw [if_pos hdup]
      · intro hfilter
        exfalso
        rw [List.find?_isSome] at hdup
        obtain ⟨x, hx, hpx⟩ := hdup
        exact (List.filter_eq_nil_iff.mp hfilter) x hx hpx
    · rw [if_neg hdup] at hadd
      injection hadd with hadd
      subst hadd
      have hsplit : ∃ T, (Nudify.insertPhoto r (mkPhoto prefs file)
            uploadMode).photos.map (fun p => p.id) = file.md5 :: T ∧
          ∀ s ∈ T, s ∈ r.photos.map (fun p => p.id) := by
        rw [insertPhoto_ids]
        by_cases hc : r.photos.length + 1 > MAX_PHOTOS
        · rw [if_pos hc]
          have hne : r.photos ≠ [] := by
            intro h
            rw [h] at hc
            simp [MAX_PHOTOS] at hc
          obtain ⟨a, l, hal⟩ : ∃ a l, r.photos = a :: l := by
            cases hrp : r.photos with
            | nil => exact absurd hrp hne
            | cons a l => exact ⟨a, l, rfl⟩
          refine ⟨((a :: l).dropLast).map (fun p => p.id), ?_, ?_⟩
          · rw [hal, List.dropLast_cons₂]
            simp [mkPhoto]
          · intro s hs
            rw [hal]
            obtain ⟨q, hq, rfl⟩ := List.mem_map.mp hs
            exact List.mem_map.mpr ⟨q, List.dropLast_subset _ hq, rfl⟩
        · rw [if_neg hc]
          refine ⟨r.photos.map (fun p => p.id), ?_, fun s hs => hs⟩
          simp [mkPhoto]
      obtain ⟨T, hT, hTsub⟩ := hsplit
      have hmd5 : ∃ q ∈ (Nudify.insertPhoto r (mkPhoto prefs file)
          uploadMode).photos, q.id = file.md5 := by
        have hmem : file.md5 ∈ (Nudify.insertPhoto r (mkPhoto prefs file)
            uploadMode).photos.map (fun p => p.id) := by
          rw [hT]
          exact List.mem_cons_self _ _
        obtain ⟨q, hq, hqid⟩ := List.mem_map.mp hmem
        exact ⟨q, hq, hqid⟩
      constructor
      · have hdup' : ((Nudify.insertPhoto r (mkPhoto prefs file)
            uploadMode).photos.find? (fun p => p.id = (mkPhoto prefs file).id)).isSome
              = true := by
          rw [List.find?_isSome]
          obtain ⟨q, hq, hqid⟩ := hmd5
          exact ⟨q, hq, by simp [hqid, mkPhoto]⟩
        simp only [Nudify.add, hmake]
        rw [if_pos hdup']
      · intro hfilter
        have hnone : ∀ s ∈ r.photos.map (fun p => p.id), s ≠ file.md5 := by
          intro s hs
          obtain ⟨q, hq, rfl⟩ := List.mem_map.mp hs
          have := (List.filter_eq_nil_iff.mp hfilter) q hq
          simpa using this
        have hcp : ((Nudify.insertPhoto r (mkPhoto prefs file)
              uploadMode).photos.map (fun p => p.id)).countP
              (fun s => s = file.md5)
            = (Nudify.insertPhoto r (mkPhoto prefs file)
              uploadMode).photos.countP (fun p => p.id = file.md5) :=
          List.countP_map _ _ _
        have hT0 : T.countP (fun s => s = file.md5) = 0 :=
          List.countP_eq_zero.mpr (fun s hs => by
            simpa using hnone s (hTsub s hs))
        rw [← List.countP_eq_length_filter, ← hcp, hT, List.countP_cons, hT0]
        simp

theorem add_idempotent_on_identity_witness :
    Nudify.add sampleRegistry "add-queue" defaultPrefsVal sampleFile
        = .ok sampleRegistry ∧
    ∃ r', Nudify.add (Registry.mk [] [] 0) "add-queue" defaultPrefsVal
          sampleFile = .ok r' ∧
      Nudify.add r' "add-queue" defaultPrefsVal sampleFile = .ok r' ∧
      (r'.photos.filter (fun p => p.id = sampleFile.md5)).length = 1 := by
  constructor
  · exact (add_idempotent_on_identity sampleRegistry "add-queue" defaultPrefsVal
      sampleFile rfl).1 (by rfl)
  · have h2 := (add_idempotent_on_identity (Registry.mk [] [] 0) "add-queue"
      defaultPrefsVal sampleFile rfl).2
    obtain ⟨r', hr'⟩ : ∃ r', Nudify.add (Registry.mk [] [] 0) "add-queue"
        defaultPrefsVal sampleFile = .ok r' := ⟨_, rfl⟩
    obtain ⟨ha, hb⟩ := h2 r' hr'
    exact ⟨r', hr', ha, hb rfl⟩

/-- C5 counterexample: two `emitUpdate` requests 50 ms apart (inside one
100 ms window) produce *two* emissions of `nudify.update` — the leading one
at t = 0 and a trailing one at t = 150 — because lodash `debounce` with
`leading: true` keeps its default `trailing: true`. The claim's "exactly
one observable emission" is false at this input. -/
theorem debounce_burst_two_emissions_counterexample :
    Debounce.debounceEmissions [0, 50] = [0, 150] ∧
    ¬ (Debounce.debounceEmissions [0, 50]).length = 1 := by
  exact ⟨by decide, by decide⟩

/-- C5 amended: the debounced `emitUpdate` fires on the leading edge (the
first request of a burst is observed immediately), and a burst of requests
with consecutive gaps under 100 ms collapses to *at most two* emissions —
exactly one (the leading) for a single request, and exactly two (leading
plus a trailing one 100 ms after the last request) when the burst has more
than one request. -/
theorem debounce_burst_leading_and_trailing (t0 : Nat) (rest : List Nat)
    (h : List.Chain (fun a b => a < b ∧ b - a < Debounce.wait) t0 rest) :
    Debounce.debounceEmissions (t0 :: rest)
      = t0 :: (if rest.isEmpty then []
               else [rest.getLastD t0 + Debounce.wait]) := by
  rw [Debounce.debounceEmissions]
  rw [show 3 * (t0 :: rest).length + 5 = (3 * (t0 :: rest).length + 4) + 1
    from rfl]
  rw [Debounce.simulate_cons_none _ _ t0 rest rfl]
  simp only [Debounce.initState]
  rw [Debounce.callAt_leading_first 0 t0]
  dsimp only
  cases rest with
  | nil =>
    rw [show 3 * [t0].length + 4 = (3 * [t0].length + 3) + 1 from rfl,
      Debounce.simulate_nil_timer _ _ (t0 + Debounce.wait) rfl,
      Debounce.timerExpired_trailing_noargs t0 t0 (t0 + Debounce.wait)
        (by omega)]
    dsimp only
    rw [Debounce.simulate_nil_none _ _ rfl]
    simp
  | cons t1 rest' =>
    cases h with
    | cons hR hchain' =>
      obtain ⟨hLt, hgap⟩ := hR
      rw [show 3 * (t0 :: t1 :: rest').length + 4
          = (3 * (t0 :: t1 :: rest').length + 3) + 1 from rfl,
        Debounce.simulate_cons_call _ _ (t0 + Debounce.wait) t1 rest' rfl
          (by omega),
        Debounce.callAt_noinvoke t0 t0 (t0 + Debounce.wait) t1 false
          (by omega)]
      dsimp only
      rw [Debounce.simulate_midburst rest' _ t1 (t0 + Debounce.wait) t0
        (by simp [List.length_cons]; omega) (by omega) (by omega) hchain']
      rw [List.getLastD_cons]
      simp

theorem debounce_burst_leading_and_trailing_witness :
    Debounce.debounceEmissions [0, 50] = 0 :: (if ([50] : List Nat).isEmpty
      then [] else [([50] : List Nat).getLastD 0 + Debounce.wait]) :=
  debounce_burst_leading_and_trailing 0 [50]
    (List.Chain.cons (by decide) List.Chain.nil)

/-- C1 counterexample: the preferences snapshot is taken with lodash
`clone`, a shallow copy. Starting from the default settings object graph,
create a Photo (snapshot at the fresh address), then mutate the global
`settings.preferences.body.executions` from 1 to 5: the already-created
Photo's preferences now read 5, not the claimed unchanged 1. -/
theorem prefs_snapshot_nested_mutation_visible :
    (Heap.readPrefs (Heap.clonePrefs Heap.sampleStore 0).1
        (Heap.clonePrefs Heap.sampleStore 0).2).map
        (fun v => v.body.executions) = some 1 ∧
    (Heap.readPrefs
        (Heap.setBodyExecutions (Heap.clonePrefs Heap.sampleStore 0).1 0 5)
        (Heap.clonePrefs Heap.sampleStore 0).2).map
        (fun v => v.body.executions) = some 5 :=
  ⟨rfl, rfl⟩

/-- C1 amended: the `Photo` constructor's snapshot of
`settings.preferences` is *shallow*: the clone lives at a fresh address and
observes the same value at creation, and rebinding a top-level property of
the global preferences object (e.g. `settings.preferences.body = other`)
does not affect the already-created Photo — but an in-place mutation of a
shared nested object (e.g. `settings.preferences.body.executions = v`) is
visible through the Photo's snapshot. -/
theorem prefs_snapshot_shallow (h : Heap.Store) (p : Nat)
    (prefs : Heap.PrefsObj) (hp : h.prefsAt p = some prefs)
    (hpn : p < h.next) :
    ((Heap.clonePrefs h p).2 = h.next) ∧
    (Heap.readPrefs (Heap.clonePrefs h p).1 (Heap.clonePrefs h p).2
      = Heap.readPrefs h p) ∧
    (∀ b, Heap.readPrefs
        (Heap.setPrefsBodyRef (Heap.clonePrefs h p).1 p b)
        (Heap.clonePrefs h p).2
      = Heap.readPrefs (Heap.clonePrefs h p).1 (Heap.clonePrefs h p).2) ∧
    (∀ v val, Heap.readPrefs h p = some val →
      (Heap.readPrefs
          (Heap.setBodyExecutions (Heap.clonePrefs h p).1 prefs.bodyRef v)
          (Heap.clonePrefs h p).2).map (fun x => x.body.executions)
        = some v) := by
  have hne : h.next ≠ p := (Nat.ne_of_lt hpn).symm
  refine ⟨by simp [Heap.clonePrefs, hp], ?_, ?_, ?_⟩
  · simp [Heap.clonePrefs, hp, Heap.readPrefs, Heap.readBody]
  · intro b
    simp [Heap.clonePrefs, hp, Heap.readPrefs, Heap.readBody,
      Heap.setPrefsBodyRef, hne]
  · intro v val hval
    simp only [Heap.readPrefs, Option.bind_eq_bind, hp,
      Option.some_bind] at hval
    obtain ⟨body, hbody, hval2⟩ := Option.bind_eq_some.mp hval
    obtain ⟨adv, hadv, hval3⟩ := Option.bind_eq_some.mp hval2
    simp only [Heap.readBody, Option.bind_eq_bind] at hbody
    obtain ⟨bodyObj, hb, hbody2⟩ := Option.bind_eq_some.mp hbody
    obtain ⟨prog, hprog, hbody3⟩ := Option.bind_eq_some.mp hbody2
    obtain ⟨boobs, hboobs, hbody4⟩ := Option.bind_eq_some.mp hbody3
    obtain ⟨areola, hareola, hbody5⟩ := Option.bind_eq_some.mp hbody4
    obtain ⟨nipple, hnipple, hbody6⟩ := Option.bind_eq_some.mp hbody5
    obtain ⟨vagina, hvagina, hbody7⟩ := Option.bind_eq_some.mp hbody6
    obtain ⟨pubicHair, hpubic, hbody8⟩ := Option.bind_eq_some.mp hbody7
    simp only [Heap.clonePrefs, hp]
    simp [Heap.readPrefs, Heap.readBody, Heap.setBodyExecutions, hb, hprog,
      hboobs, hareola, hnipple, hvagina, hpubic, hadv]

theorem prefs_snapshot_shallow_witness :
    ((Heap.clonePrefs Heap.sampleStore 0).2 = Heap.sampleStore.next) ∧
    (Heap.readPrefs (Heap.clonePrefs Heap.sampleStore 0).1
        (Heap.clonePrefs Heap.sampleStore 0).2
      = Heap.readPrefs Heap.sampleStore 0) ∧
    (Heap.readPrefs
        (Heap.setPrefsBodyRef (Heap.clonePrefs Heap.sampleStore 0).1 0 7)
        (Heap.clonePrefs Heap.sampleStore 0).2
      = Heap.readPrefs (Heap.clonePrefs Heap.sampleStore 0).1
          (Heap.clonePrefs Heap.sampleStore 0).2) ∧
    ((Heap.readPrefs
        (Heap.setBodyExecutions (Heap.clonePrefs Heap.sampleStore 0).1 0 5)
        (Heap.clonePrefs Heap.sampleStore 0).2).map
        (fun x => x.body.executions) = some 5) := by
  have h := prefs_snapshot_shallow Heap.sampleStore 0
    { bodyRef := 0, advancedRef := 0 } rfl (by decide)
  exact ⟨h.1, h.2.1, h.2.2.1 7, h.2.2.2 5 defaultPrefsVal rfl⟩

end DreamTime
